import Mathlib

/-!
Shallow embedding of the TicketManagement repository.

This file embeds, in Lean 4, the data model and the operations of the
`martialo12/TicketManagement` repository (a FastAPI/SQLAlchemy ticket CRUD
service) and proves the frozen claims about it.

Embedding conventions:
* A ticket store (the `tickets` table) is a `List Ticket` in insertion order
  (the natural row order of SQLite for an un-ordered `SELECT`).
* 128-bit UUID identifiers are natural numbers below `2 ^ 128`.
* Timestamps are opaque natural numbers.
* Python exceptions become constructors of `TicketError`; a repository call
  is `Except TicketError (result × newStore)`.  An `Except.error` result
  leaves the caller holding the old store, which models the SQLAlchemy
  `rollback()` call (the writes of the transaction are discarded).
* Storage faults (the `Exception`s that SQLAlchemy may raise while talking
  to the database) are injected explicitly: each repository operation takes
  an optional fault for its query step (`qf`) and for its commit step
  (`cf`); `none` means the storage behaves normally, `some reason` means
  the corresponding database call raises an exception whose string form is
  `reason`.
-/

namespace TicketMgmt

/-- The `TicketStatus` enum from `app/tickets/models.py`: a string-valued enum
with members OPEN, STALLED, CLOSED. -/
inductive TicketStatus where
  | OPEN
  | STALLED
  | CLOSED
deriving DecidableEq, Repr

/-- The `.value` of each enum member, as in the Python `str, Enum`. -/
def TicketStatus.value : TicketStatus → String
  | .OPEN => "open"
  | .STALLED => "stalled"
  | .CLOSED => "closed"

/-- The `Ticket` ORM model from `app/tickets/models.py`: columns
`id` (GUID primary key), `title`, `description`, `status` (stored as a
string column), `created_at`. -/
structure Ticket where
  id : Nat
  title : String
  description : String
  status : String
  created_at : Nat
deriving DecidableEq, Repr

/-- The `TicketCreate` schema (`app/tickets/schemas.py`): `title` and
`description` only. -/
structure TicketCreate where
  title : String
  description : String
deriving DecidableEq, Repr

/-- The `TicketUpdate` schema (`app/tickets/schemas.py`): inherits `TicketBase`
unchanged, so it carries `title` and `description` only — it has **no**
`status` field. -/
structure TicketUpdate where
  title : String
  description : String
deriving DecidableEq, Repr

/-- The exceptions of `app/tickets/exceptions.py`, plus `storageError` for
a raw storage exception that escapes the repository unwrapped (as happens
in `get_ticket`/`get_tickets`, which log and re-`raise`). -/
inductive TicketError where
  | notFound (id : Nat)
  | creationFailed (reason : String)
  | updateFailed (id : Nat) (reason : String)
  | deletionFailed (id : Nat) (reason : String)
  | storageError (reason : String)
deriving DecidableEq, Repr

/-- HTTP status carried by each typed exception (`exceptions.py`);
a raw storage exception is not an `HTTPException` and surfaces as a
generic server error. -/
def TicketError.statusCode : TicketError → Nat
  | .notFound _ => 404
  | .creationFailed _ => 500
  | .updateFailed _ _ => 500
  | .deletionFailed _ _ => 500
  | .storageError _ => 500

/-- Embeds `TicketRepository.get_ticket`: `query(Ticket).filter(Ticket.id ==
ticket_id).first()`; returns the row or `None`.  On a storage exception the
code logs and re-raises the raw exception (no rollback, no wrapping). -/
def get_ticket (qf : Option String) (db : List Ticket) (ticket_id : Nat) :
    Except TicketError (Option Ticket) :=
  match qf with
  | some r => .error (.storageError r)
  | none => .ok (db.find? (fun t => t.id == ticket_id))

/-- Embeds `TicketRepository.get_tickets`: `query(Ticket).offset(skip).limit(limit)
.all()`.  On a storage exception the code logs and re-raises the raw
exception. -/
def get_tickets (qf : Option String) (db : List Ticket) (skip limit : Nat) :
    Except TicketError (List Ticket) :=
  match qf with
  | some r => .error (.storageError r)
  | none => .ok ((db.drop skip).take limit)

/-- Embeds `TicketRepository.create_ticket`: builds a row with
`status = TicketStatus.OPEN.value`, a generated id (`default=uuid.uuid4`)
and `created_at = datetime.utcnow()`, then `add`/`commit`/`refresh`.
Any exception at commit time (including the primary-key UNIQUE violation
when the generated id already exists among stored rows) is caught, the
transaction rolled back, and `TicketCreationFailedException(str(e))`
raised. -/
def create_ticket (cf : Option String) (db : List Ticket)
    (ticket : TicketCreate) (genId : Nat) (now : Nat) :
    Except TicketError (Ticket × List Ticket) :=
  match cf with
  | some r => .error (.creationFailed r)
  | none =>
    if db.any (fun t => t.id == genId) then
      .error (.creationFailed "UNIQUE constraint failed: tickets.id")
    else
      let t : Ticket := ⟨genId, ticket.title, ticket.description,
        TicketStatus.OPEN.value, now⟩
      .ok (t, db ++ [t])

/-- Row replacement performed by SQLAlchemy when a fetched ORM object is
mutated and the session committed: the stored row with the id of the object now
holds the mutated values. -/
def replaceById (db : List Ticket) (ticket_id : Nat) (t2 : Ticket) :
    List Ticket :=
  db.map (fun x => if x.id == ticket_id then t2 else x)

/-- Embeds `TicketRepository.update_ticket`: looks the row up (re-raising a raw
lookup exception, which the outer handler then wraps as `UpdateFailed`);
raises `TicketNotFoundException` if absent (re-raised unwrapped by the
dedicated `except` arm); otherwise overwrites `title` and `description`
only — status is deliberately not updated — and commits.  A commit
exception rolls back and raises `TicketUpdateFailedException`. -/
def update_ticket (qf cf : Option String) (db : List Ticket)
    (ticket_id : Nat) (ticket_update : TicketUpdate) :
    Except TicketError (Ticket × List Ticket) :=
  match qf with
  | some r => .error (.updateFailed ticket_id r)
  | none =>
    match db.find? (fun t => t.id == ticket_id) with
    | none => .error (.notFound ticket_id)
    | some t =>
      match cf with
      | some r => .error (.updateFailed ticket_id r)
      | none =>
        let t2 : Ticket := ⟨t.id, ticket_update.title,
          ticket_update.description, t.status, t.created_at⟩
        .ok (t2, replaceById db ticket_id t2)

/-- Embeds `TicketRepository.close_ticket`: looks the row up; raises
`TicketNotFoundException` if absent (re-raised unwrapped); otherwise sets
`status = TicketStatus.CLOSED.value` unconditionally and commits.  A commit
exception rolls back and raises `TicketUpdateFailedException`. -/
def close_ticket (qf cf : Option String) (db : List Ticket)
    (ticket_id : Nat) : Except TicketError (Ticket × List Ticket) :=
  match qf with
  | some r => .error (.updateFailed ticket_id r)
  | none =>
    match db.find? (fun t => t.id == ticket_id) with
    | none => .error (.notFound ticket_id)
    | some t =>
      match cf with
      | some r => .error (.updateFailed ticket_id r)
      | none =>
        let t2 : Ticket := ⟨t.id, t.title, t.description,
          TicketStatus.CLOSED.value, t.created_at⟩
        .ok (t2, replaceById db ticket_id t2)

/-- Embeds `TicketRepository.delete_ticket`: looks the row up; raises
`TicketNotFoundException` if absent (re-raised unwrapped); otherwise
deletes the row and commits.  A commit exception rolls back and raises
`TicketDeletionFailedException`. -/
def delete_ticket (qf cf : Option String) (db : List Ticket)
    (ticket_id : Nat) : Except TicketError (List Ticket) :=
  match qf with
  | some r => .error (.deletionFailed ticket_id r)
  | none =>
    match db.find? (fun t => t.id == ticket_id) with
    | none => .error (.notFound ticket_id)
    | some _ =>
      match cf with
      | some r => .error (.deletionFailed ticket_id r)
      | none => .ok (db.filter (fun t => !(t.id == ticket_id)))

/-- Embeds `TicketService.get_ticket`: calls the repository and converts an
absent row into `TicketNotFoundException`. -/
def service_get_ticket (qf : Option String) (db : List Ticket)
    (ticket_id : Nat) : Except TicketError Ticket :=
  match get_ticket qf db ticket_id with
  | .error e => .error e
  | .ok none => .error (.notFound ticket_id)
  | .ok (some t) => .ok t

/-! The GUID type decorator (`app/tickets/models.py`).

`GUID` stores identifiers natively on PostgreSQL and as `CHAR(36)` text
elsewhere.  We embed the Python `str(uuid_obj)` (canonical 36-character
hyphenated lowercase hex) and `uuid.UUID(text)` (strip hyphens, require 32
hex digits, read as a base-16 integer). -/

/-- Lowercase hex digit character for `d < 16`, as produced by the Python
`%x` formatting (digits 0 to 9 then letters a to f). -/
def hexChar (d : Nat) : Char :=
  if d < 10 then Char.ofNat (48 + d) else Char.ofNat (87 + d)

/-- Value of one hex character, as accepted by the Python `int(s, 16)`
(both cases); `none` for a non-hex character. -/
def hexVal (c : Char) : Option Nat :=
  if 48 ≤ c.toNat ∧ c.toNat ≤ 57 then some (c.toNat - 48)
  else if 97 ≤ c.toNat ∧ c.toNat ≤ 102 then some (c.toNat - 87)
  else if 65 ≤ c.toNat ∧ c.toNat ≤ 70 then some (c.toNat - 55)
  else none

/-- Fixed-width `w`-digit lowercase hex rendering of `n` (most significant
digit first), the zero-padded `%x` formatting of Python for `n < 16 ^ w`. -/
def toHex : Nat → Nat → List Char
  | _, 0 => []
  | n, w + 1 => toHex (n / 16) w ++ [hexChar (n % 16)]

/-- Big-endian base-16 accumulator read of a digit string,
`int(s, 16)` on the already-validated digit list. -/
def parseHexAux : List Char → Nat → Option Nat
  | [], acc => some acc
  | c :: cs, acc =>
    match hexVal c with
    | none => none
    | some d => parseHexAux cs (16 * acc + d)

/-- Hyphen placement of `str(uuid.UUID)`: groups of 8-4-4-4-12 hex
characters. -/
def insertHyphens (h : List Char) : List Char :=
  h.take 8 ++ ['-'] ++ (h.drop 8).take 4 ++ ['-'] ++ (h.drop 12).take 4
    ++ ['-'] ++ (h.drop 16).take 4 ++ ['-'] ++ h.drop 20

/-- Python `str(uuid_obj)`: canonical 36-character hyphenated lowercase
text of a 128-bit identifier. -/
def uuidToString (n : Nat) : String :=
  String.mk (insertHyphens (toHex n 32))

/-- Python `uuid.UUID(text)` on plain text input: remove hyphens, require
exactly 32 hex characters, read as a 128-bit integer; raises (here:
`none`) otherwise. -/
def parseUUID (s : String) : Option Nat :=
  let cs := s.toList.filter (fun c => !(c == '-'))
  if cs.length = 32 then parseHexAux cs 0 else none

/-- A value flowing through the `GUID` type decorator: Python `None`, a
`uuid.UUID` instance, or a string. -/
inductive GUIDValue where
  | null
  | uuid (n : Nat)
  | str (s : String)
deriving DecidableEq, Repr

/-- Embeds `GUID.process_bind_param`: `None` passes through; on PostgreSQL the
value passes through; otherwise a `uuid.UUID` instance is serialized with
`str(value)` and any other value is normalized via `str(uuid.UUID(value))`
(raising — here `none` — if the text is not a valid UUID). -/
def process_bind_param (dialect : String) (value : GUIDValue) :
    Option GUIDValue :=
  match value with
  | .null => some .null
  | v =>
    if dialect == "postgresql" then some v
    else
      match v with
      | .uuid n => some (.str (uuidToString n))
      | .str s => (parseUUID s).map (fun n => .str (uuidToString n))
      | .null => some .null

/-- Embeds `GUID.process_result_value`: `None` passes through; on PostgreSQL the
value passes through; otherwise the stored text is parsed with
`uuid.UUID(value)` (a non-string stored value makes `uuid.UUID` raise —
here `none`). -/
def process_result_value (dialect : String) (value : GUIDValue) :
    Option GUIDValue :=
  match value with
  | .null => some .null
  | v =>
    if dialect == "postgresql" then some v
    else
      match v with
      | .str s => (parseUUID s).map .uuid
      | _ => none

/-- Value of one decimal digit character; `none` otherwise. -/
def decDigit (c : Char) : Option Nat :=
  if 48 ≤ c.toNat ∧ c.toNat ≤ 57 then some (c.toNat - 48) else none

/-- Big-endian base-10 accumulator read of a digit string. -/
def parseDecAux : List Char → Nat → Option Nat
  | [], acc => some acc
  | c :: cs, acc =>
    match decDigit c with
    | none => none
    | some d => parseDecAux cs (10 * acc + d)

/-- Decimal integer parsing (optional leading minus sign, then at least
one digit), the coercion applied to an `int`-typed path parameter. -/
def parseIntString (s : String) : Option Int :=
  match s.toList with
  | [] => none
  | c :: cs =>
    if c == '-' then
      match cs with
      | [] => none
      | _ => (parseDecAux cs 0).map (fun n => -(n : Int))
    else (parseDecAux (c :: cs) 0).map (fun n => (n : Int))

/-- FastAPI path-parameter handling for the ticket endpoints in
`app/tickets/router.py`: every one of `get`/`update`/`close`/`delete`
declares `ticket_id: int = Path(..., gt=0)`, so the path segment is parsed
as an integer and must be strictly positive; anything else is rejected
with a 422 validation error before the service is called. -/
def parsePathTicketId (s : String) : Option Int :=
  match parseIntString s with
  | none => none
  | some i => if 0 < i then some i else none

/-- A PUT request body for the update endpoint: JSON fields `title`,
`description`, and possibly an extra `status` member (the schema does not
declare one). -/
structure UpdateBody where
  title : String
  description : String
  status : Option String
deriving DecidableEq, Repr

/-- Pydantic validation of a request body against `TicketUpdate`
(`app/tickets/schemas.py`): `title` must be 1–200 characters and
`description` at least 1 character (the `Field` constraints inherited from
`TicketBase`).  `TicketUpdate` declares no `status` field and the model
keeps the pydantic default `extra` behaviour (ignore), so a `status` member
in the body is dropped without being validated. -/
def parseTicketUpdate (b : UpdateBody) : Option TicketUpdate :=
  if 1 ≤ b.title.length ∧ b.title.length ≤ 200 ∧ 1 ≤ b.description.length
  then some ⟨b.title, b.description⟩ else none

/-- Whether an error is one of the generic storage-failure kinds
(`TicketCreationFailedException` / `TicketUpdateFailedException` /
`TicketDeletionFailedException`). -/
def TicketError.isWrappedFailure : TicketError → Bool
  | .creationFailed _ => true
  | .updateFailed _ _ => true
  | .deletionFailed _ _ => true
  | .notFound _ => false
  | .storageError _ => false

/-- One invocation of a public API operation, with its injected storage
faults and (for create) the id drawn by `uuid.uuid4` and the clock
reading. -/
inductive Op where
  | createOp (cf : Option String) (tc : TicketCreate) (genId now : Nat)
  | listOp (qf : Option String) (skip limit : Nat)
  | getOp (qf : Option String) (ticket_id : Nat)
  | updateOp (qf cf : Option String) (ticket_id : Nat) (u : TicketUpdate)
  | closeOp (qf cf : Option String) (ticket_id : Nat)
  | deleteOp (qf cf : Option String) (ticket_id : Nat)
deriving DecidableEq, Repr

/-- Effect of one public operation on the stored table.  A failed call
leaves the table as it was (the repository rolls the transaction back; a
raw read exception changes nothing either). -/
def applyOp (db : List Ticket) : Op → List Ticket
  | .createOp cf tc genId now =>
    match create_ticket cf db tc genId now with
    | .ok (_, db2) => db2
    | .error _ => db
  | .listOp _ _ _ => db
  | .getOp _ _ => db
  | .updateOp qf cf ticket_id u =>
    match update_ticket qf cf db ticket_id u with
    | .ok (_, db2) => db2
    | .error _ => db
  | .closeOp qf cf ticket_id =>
    match close_ticket qf cf db ticket_id with
    | .ok (_, db2) => db2
    | .error _ => db
  | .deleteOp qf cf ticket_id =>
    match delete_ticket qf cf db ticket_id with
    | .ok db2 => db2
    | .error _ => db

/-- The table produced by a sequence of public operations starting from
the empty store. -/
def runOps (ops : List Op) : List Ticket :=
  ops.foldl applyOp []

/-! Helper lemmas about lookup and row replacement. -/

theorem find?_replaceById (db : List Ticket) (ticket_id : Nat)
    (t t2 : Ticket) (h : db.find? (fun x => x.id == ticket_id) = some t)
    (h2 : (t2.id == ticket_id) = true) :
    (replaceById db ticket_id t2).find? (fun x => x.id == ticket_id)
      = some t2 := by
  induction db with
  | nil => simp [List.find?] at h
  | cons x xs ih =>
    simp only [replaceById, List.map_cons] at ih ⊢
    by_cases hx : (x.id == ticket_id) = true
    · rw [if_pos hx]
      exact List.find?_cons_of_pos _ h2
    · rw [if_neg hx]
      rw [List.find?_cons_of_neg _ (by simp_all)] at h
      rw [List.find?_cons_of_neg _ (by simp_all)]
      exact ih h

theorem replaceById_idem (db : List Ticket) (ticket_id : Nat) (t2 : Ticket)
    (h2 : (t2.id == ticket_id) = true) :
    replaceById (replaceById db ticket_id t2) ticket_id t2
      = replaceById db ticket_id t2 := by
  induction db with
  | nil => rfl
  | cons x xs ih =>
    simp only [replaceById, List.map_cons] at ih ⊢
    by_cases hx : (x.id == ticket_id) = true
    · rw [if_pos hx, if_pos h2, ih]
    · rw [if_neg hx, if_neg hx, ih]

/-! Claim theorems. -/

/-- C1.  The full-update operation on an existing ticket overwrites only
`title` and `description`: the stored (and returned) ticket keeps the
status and creation timestamp it had before the update, for every request
body, and every row with a different id is untouched. -/
theorem update_ticket_preserves_status_and_created_at
    (db : List Ticket) (ticket_id : Nat) (u : TicketUpdate) (t : Ticket)
    (h : db.find? (fun x => x.id == ticket_id) = some t) :
    ∃ t2 db2, update_ticket none none db ticket_id u = .ok (t2, db2) ∧
      t2.status = t.status ∧ t2.created_at = t.created_at ∧
      t2.title = u.title ∧ t2.description = u.description ∧ t2.id = t.id ∧
      db2.find? (fun x => x.id == ticket_id) = some t2 ∧
      ∀ x : Ticket, (x.id == ticket_id) = false → (x ∈ db2 ↔ x ∈ db) := by
  have ht : (t.id == ticket_id) = true := by
    have hp := List.find?_some h
    exact hp
  refine ⟨⟨t.id, u.title, u.description, t.status, t.created_at⟩,
    replaceById db ticket_id
      ⟨t.id, u.title, u.description, t.status, t.created_at⟩,
    ?_, rfl, rfl, rfl, rfl, rfl, ?_, ?_⟩
  · simp [update_ticket, h]
  · exact find?_replaceById db ticket_id t _ h ht
  · intro x hxid
    constructor
    · intro hx
      rcases List.mem_map.mp hx with ⟨y, hy, hyx⟩
      by_cases hyid : (y.id == ticket_id) = true
      · simp [hyid] at hyx
        rw [← hyx] at hxid
        simp only [ht] at hxid
        cases hxid
      · simp [hyid] at hyx
        rwa [← hyx]
    · intro hx
      refine List.mem_map.mpr ⟨x, hx, ?_⟩
      simp [hxid]

/-- Witness for C1 at a concrete store, ticket and request body. -/
theorem update_ticket_preserves_status_and_created_at_witness :
    ([⟨1, "a", "b", "open", 5⟩] :
        List Ticket).find? (fun x => x.id == 1) = some ⟨1, "a", "b", "open", 5⟩ ∧
    ∃ t2 db2, update_ticket none none [⟨1, "a", "b", "open", 5⟩] 1 ⟨"c", "d"⟩
        = .ok (t2, db2) ∧
      t2.status = Ticket.status ⟨1, "a", "b", "open", 5⟩ ∧
      t2.created_at = Ticket.created_at ⟨1, "a", "b", "open", 5⟩ ∧
      t2.title = TicketUpdate.title ⟨"c", "d"⟩ ∧
      t2.description = TicketUpdate.description ⟨"c", "d"⟩ ∧
      t2.id = Ticket.id ⟨1, "a", "b", "open", 5⟩ ∧
      db2.find? (fun x => x.id == 1) = some t2 ∧
      ∀ x : Ticket, (x.id == 1) = false →
        (x ∈ db2 ↔ x ∈ ([⟨1, "a", "b", "open", 5⟩] : List Ticket)) :=
  ⟨by decide,
   update_ticket_preserves_status_and_created_at
     [⟨1, "a", "b", "open", 5⟩] 1 ⟨"c", "d"⟩ ⟨1, "a", "b", "open", 5⟩
     (by decide)⟩

/-- C2.  Closing an existing ticket sets its status to `"closed"`
unconditionally, and a second close on the same id succeeds and returns
exactly the ticket and store produced by the first close. -/
theorem close_ticket_idempotent (db : List Ticket) (ticket_id : Nat)
    (t : Ticket) (h : db.find? (fun x => x.id == ticket_id) = some t) :
    ∃ t1 db1, close_ticket none none db ticket_id = .ok (t1, db1) ∧
      t1.status = TicketStatus.CLOSED.value ∧
      close_ticket none none db1 ticket_id = .ok (t1, db1) := by
  have ht : (t.id == ticket_id) = true := by
    have hp := List.find?_some h
    exact hp
  refine ⟨⟨t.id, t.title, t.description, TicketStatus.CLOSED.value,
    t.created_at⟩,
    replaceById db ticket_id
      ⟨t.id, t.title, t.description, TicketStatus.CLOSED.value,
        t.created_at⟩, ?_, rfl, ?_⟩
  · simp [close_ticket, h]
  · have hfind := find?_replaceById db ticket_id t
      ⟨t.id, t.title, t.description, TicketStatus.CLOSED.value,
        t.created_at⟩ h ht
    have hidem := replaceById_idem db ticket_id
      ⟨t.id, t.title, t.description, TicketStatus.CLOSED.value,
        t.created_at⟩ ht
    simp [close_ticket, hfind, hidem]

/-- Witness for C2 at a concrete store with one open ticket. -/
theorem close_ticket_idempotent_witness :
    ([⟨1, "a", "b", "open", 5⟩] :
        List Ticket).find? (fun x => x.id == 1) = some ⟨1, "a", "b", "open", 5⟩ ∧
    ∃ t1 db1, close_ticket none none [⟨1, "a", "b", "open", 5⟩] 1
        = .ok (t1, db1) ∧
      t1.status = TicketStatus.CLOSED.value ∧
      close_ticket none none db1 1 = .ok (t1, db1) :=
  ⟨by decide,
   close_ticket_idempotent [⟨1, "a", "b", "open", 5⟩] 1
     ⟨1, "a", "b", "open", 5⟩ (by decide)⟩

/-- C3.  On an id that matches no stored ticket, `get` (at the service
boundary), `update`, `close` and `delete` all yield the distinct
`notFound` failure — mapped to HTTP 404 — and never a `creationFailed` /
`updateFailed` / `deletionFailed` storage failure (500), whatever the
request body and whatever commit fault might be pending. -/
theorem missing_id_yields_notFound (db : List Ticket) (ticket_id : Nat)
    (h : db.find? (fun x => x.id == ticket_id) = none) (cf : Option String) :
    service_get_ticket none db ticket_id = .error (.notFound ticket_id) ∧
    (∀ u, update_ticket none cf db ticket_id u
      = .error (.notFound ticket_id)) ∧
    close_ticket none cf db ticket_id = .error (.notFound ticket_id) ∧
    delete_ticket none cf db ticket_id = .error (.notFound ticket_id) ∧
    TicketError.statusCode (.notFound ticket_id) = 404 := by
  refine ⟨?_, ?_, ?_, ?_, rfl⟩
  · simp [service_get_ticket, get_ticket, h]
  · intro u
    simp [update_ticket, h]
  · simp [close_ticket, h]
  · simp [delete_ticket, h]

/-- Witness for C3 on the empty store. -/
theorem missing_id_yields_notFound_witness :
    ([] : List Ticket).find? (fun x => x.id == 7) = none ∧
    (service_get_ticket none [] 7 = .error (.notFound 7) ∧
    (∀ u, update_ticket none none [] 7 u = .error (.notFound 7)) ∧
    close_ticket none none [] 7 = .error (.notFound 7) ∧
    delete_ticket none none [] 7 = .error (.notFound 7) ∧
    TicketError.statusCode (.notFound 7) = 404) :=
  ⟨by decide, missing_id_yields_notFound [] 7 (by decide) none⟩

/-- C5.  When the id drawn by the generator is fresh (not equal to any
previously issued id — the purpose of `uuid.uuid4`; the primary-key constraint
would otherwise fail the insert), `create` succeeds and the returned
ticket has status `"open"` and an id different from every previously
issued one. -/
theorem create_ticket_open_and_fresh (db : List Ticket) (issued : List Nat)
    (tc : TicketCreate) (genId now : Nat)
    (hsub : ∀ t ∈ db, t.id ∈ issued) (hfresh : genId ∉ issued) :
    ∃ t db2, create_ticket none db tc genId now = .ok (t, db2) ∧
      t.status = TicketStatus.OPEN.value ∧ t.id = genId ∧
      t.id ∉ issued ∧ db2 = db ++ [t] := by
  have hany : db.any (fun t => t.id == genId) = false := by
    rw [List.any_eq_false]
    intro x hx
    simp only [beq_iff_eq]
    intro heq
    exact hfresh (heq ▸ hsub x hx)
  refine ⟨⟨genId, tc.title, tc.description, TicketStatus.OPEN.value, now⟩,
    _, ?_, rfl, rfl, hfresh, rfl⟩
  simp [create_ticket, hany]

/-- Witness for C5: creating into an empty store with fresh id 5. -/
theorem create_ticket_open_and_fresh_witness :
    (∀ t ∈ ([] : List Ticket), t.id ∈ ([] : List Nat)) ∧
    (5 : Nat) ∉ ([] : List Nat) ∧
    ∃ t db2, create_ticket none [] ⟨"a", "b"⟩ 5 0 = .ok (t, db2) ∧
      t.status = TicketStatus.OPEN.value ∧ t.id = 5 ∧
      t.id ∉ ([] : List Nat) ∧ db2 = [] ++ [t] :=
  ⟨by simp, by simp,
   create_ticket_open_and_fresh [] [] ⟨"a", "b"⟩ 5 0 (by simp) (by simp)⟩

/-- C6.  Listing never errors (absent storage faults): it returns
exactly `min limit (total - skip)` tickets (`Nat` subtraction is truncated
at zero), they appear in stable insertion order (a sublist of the store,
with element `i` of the page equal to element `skip + i` of the store),
and the page is empty when `skip` reaches past the row count. -/
theorem get_tickets_pagination (db : List Ticket) (skip limit : Nat)
    (hlim : 1 ≤ limit) :
    ∃ l, get_tickets none db skip limit = .ok l ∧
      l.length = min limit (db.length - skip) ∧
      l.Sublist db ∧
      (∀ i, i < l.length → l[i]? = db[skip + i]?) ∧
      (db.length ≤ skip → l = []) := by
  refine ⟨(db.drop skip).take limit, rfl, ?_, ?_, ?_, ?_⟩
  · rw [List.length_take, List.length_drop]
  · exact (List.take_sublist limit _).trans (List.drop_sublist skip db)
  · intro i hi
    have hi2 : i < limit := lt_of_lt_of_le hi (by
      rw [List.length_take]
      exact min_le_left _ _)
    rw [List.getElem?_take, if_pos hi2, List.getElem?_drop]
  · intro hskip
    rw [List.drop_eq_nil_of_le hskip, List.take_nil]

/-- Witness for C6 on a two-row store with skip 1, limit 100. -/
theorem get_tickets_pagination_witness :
    (1 : Nat) ≤ 100 ∧
    ∃ l, get_tickets none
        [⟨1, "a", "b", "open", 0⟩, ⟨2, "c", "d", "open", 1⟩] 1 100
        = .ok l ∧
      l.length = min 100
        (List.length [(⟨1, "a", "b", "open", 0⟩ : Ticket),
          ⟨2, "c", "d", "open", 1⟩] - 1) ∧
      l.Sublist [⟨1, "a", "b", "open", 0⟩, ⟨2, "c", "d", "open", 1⟩] ∧
      (∀ i, i < l.length → l[i]? =
        [(⟨1, "a", "b", "open", 0⟩ : Ticket),
          ⟨2, "c", "d", "open", 1⟩][1 + i]?) ∧
      (List.length [(⟨1, "a", "b", "open", 0⟩ : Ticket),
          ⟨2, "c", "d", "open", 1⟩] ≤ 1 → l = []) :=
  ⟨by norm_num,
   get_tickets_pagination
     [⟨1, "a", "b", "open", 0⟩, ⟨2, "c", "d", "open", 1⟩] 1 100
     (by norm_num)⟩

/-- C7 counterexample.  A PUT body whose `status` member is
`"banana"` — not one of the enumerated values — still parses (pydantic
drops the undeclared member), contradicting the claim that such a request
is rejected with a validation failure. -/
theorem update_body_invalid_status_still_parses :
    parseTicketUpdate ⟨"Bug fixed", "The bug has been fixed", some "banana"⟩
      = some ⟨"Bug fixed", "The bug has been fixed"⟩ ∧
    ¬("banana" = TicketStatus.OPEN.value ∨
      "banana" = TicketStatus.STALLED.value ∨
      "banana" = TicketStatus.CLOSED.value) := by
  constructor
  · decide
  · decide

/-- C7 amended.  The `status` member of a full-update body is ignored
entirely: parsing does not depend on it (so no status value, valid or
not, is ever rejected), a body parses exactly when the `title`/
`description` constraints hold, and the resulting repository update is
identical whatever `status` was sent. -/
theorem update_body_status_ignored (title desc : String)
    (st st2 : Option String) :
    parseTicketUpdate ⟨title, desc, st⟩
      = parseTicketUpdate ⟨title, desc, st2⟩ ∧
    (parseTicketUpdate ⟨title, desc, st⟩ = none ↔
      ¬(1 ≤ title.length ∧ title.length ≤ 200 ∧ 1 ≤ desc.length)) ∧
    ∀ (db : List Ticket) (ticket_id : Nat),
      (parseTicketUpdate ⟨title, desc, st⟩).map
          (update_ticket none none db ticket_id)
        = (parseTicketUpdate ⟨title, desc, st2⟩).map
          (update_ticket none none db ticket_id) := by
  refine ⟨rfl, ?_, fun db ticket_id => rfl⟩
  by_cases hc : (1 ≤ title.length ∧ title.length ≤ 200 ∧ 1 ≤ desc.length)
  · simp [parseTicketUpdate, hc]
  · simp [parseTicketUpdate, hc]

/-- C9 counterexample.  A storage exception during a read escapes the
repository raw: `get_ticket` and `get_tickets` re-raise it, so the caller
sees the bare exception, not one of the wrapped failure kinds. -/
theorem read_ops_reraise_raw_storage_exception :
    get_ticket (some "disk full") [] 7
      = .error (.storageError "disk full") ∧
    get_tickets (some "disk full") [] 0 100
      = .error (.storageError "disk full") ∧
    (TicketError.storageError "disk full").isWrappedFailure = false :=
  ⟨rfl, rfl, rfl⟩

/-- C9 amended.  The wrapping policy holds for the four mutating
operations — a storage fault at commit time is rolled back and surfaced
as the matching typed failure carrying the reason string — while the read
operations `get` and `list` log and re-raise the raw exception
unwrapped. -/
theorem storage_faults_wrapped_only_in_mutators (db : List Ticket)
    (ticket_id skip limit genId now : Nat) (tc : TicketCreate)
    (u : TicketUpdate) (t : Ticket) (r : String)
    (h : db.find? (fun x => x.id == ticket_id) = some t) :
    create_ticket (some r) db tc genId now
      = .error (.creationFailed r) ∧
    update_ticket none (some r) db ticket_id u
      = .error (.updateFailed ticket_id r) ∧
    close_ticket none (some r) db ticket_id
      = .error (.updateFailed ticket_id r) ∧
    delete_ticket none (some r) db ticket_id
      = .error (.deletionFailed ticket_id r) ∧
    get_ticket (some r) db ticket_id = .error (.storageError r) ∧
    get_tickets (some r) db skip limit = .error (.storageError r) := by
  refine ⟨rfl, ?_, ?_, ?_, rfl, rfl⟩
  · simp [update_ticket, h]
  · simp [close_ticket, h]
  · simp [delete_ticket, h]

/-- Witness for the amended C9 on a one-row store. -/
theorem storage_faults_wrapped_only_in_mutators_witness :
    ([⟨1, "a", "b", "open", 0⟩] :
        List Ticket).find? (fun x => x.id == 1)
      = some ⟨1, "a", "b", "open", 0⟩ ∧
    (create_ticket (some "oops") [⟨1, "a", "b", "open", 0⟩] ⟨"t", "d"⟩ 2 3
      = .error (.creationFailed "oops") ∧
    update_ticket none (some "oops") [⟨1, "a", "b", "open", 0⟩] 1 ⟨"t", "d"⟩
      = .error (.updateFailed 1 "oops") ∧
    close_ticket none (some "oops") [⟨1, "a", "b", "open", 0⟩] 1
      = .error (.updateFailed 1 "oops") ∧
    delete_ticket none (some "oops") [⟨1, "a", "b", "open", 0⟩] 1
      = .error (.deletionFailed 1 "oops") ∧
    get_ticket (some "oops") [⟨1, "a", "b", "open", 0⟩] 1
      = .error (.storageError "oops") ∧
    get_tickets (some "oops") [⟨1, "a", "b", "open", 0⟩] 0 100
      = .error (.storageError "oops")) :=
  ⟨by decide,
   storage_faults_wrapped_only_in_mutators [⟨1, "a", "b", "open", 0⟩]
     1 0 100 2 3 ⟨"t", "d"⟩ ⟨"t", "d"⟩ ⟨1, "a", "b", "open", 0⟩ "oops"
     (by decide)⟩

theorem noStalled_applyOp (db : List Ticket) (op : Op)
    (hdb : ∀ t ∈ db, t.status ≠ TicketStatus.STALLED.value) :
    ∀ t ∈ applyOp db op, t.status ≠ TicketStatus.STALLED.value := by
  cases op with
  | createOp cf tc genId now =>
    intro t ht
    cases cf with
    | some r =>
      simp only [applyOp, create_ticket] at ht
      exact hdb t ht
    | none =>
      by_cases hdup : db.any (fun x => x.id == genId) = true
      · simp only [applyOp, create_ticket, hdup, if_pos] at ht
        exact hdb t ht
      · simp only [applyOp, create_ticket, if_neg hdup, List.mem_append,
          List.mem_singleton] at ht
        rcases ht with ht | ht
        · exact hdb t ht
        · subst ht
          show TicketStatus.OPEN.value ≠ TicketStatus.STALLED.value
          decide
  | listOp qf skip limit =>
    intro t ht
    exact hdb t ht
  | getOp qf ticket_id =>
    intro t ht
    exact hdb t ht
  | updateOp qf cf ticket_id u =>
    intro t ht
    cases qf with
    | some r =>
      simp only [applyOp, update_ticket] at ht
      exact hdb t ht
    | none =>
      cases hfind : db.find? (fun x => x.id == ticket_id) with
      | none =>
        simp only [applyOp, update_ticket, hfind] at ht
        exact hdb t ht
      | some t0 =>
        cases cf with
        | some r =>
          simp only [applyOp, update_ticket, hfind] at ht
          exact hdb t ht
        | none =>
          have ht0 : t0 ∈ db := List.mem_of_find?_eq_some hfind
          simp only [applyOp, update_ticket, hfind, replaceById,
            List.mem_map] at ht
          rcases ht with ⟨y, hy, hyt⟩
          by_cases hyid : (y.id == ticket_id) = true
          · rw [if_pos hyid] at hyt
            rw [← hyt]
            exact hdb t0 ht0
          · rw [if_neg hyid] at hyt
            rw [← hyt]
            exact hdb y hy
  | closeOp qf cf ticket_id =>
    intro t ht
    cases qf with
    | some r =>
      simp only [applyOp, close_ticket] at ht
      exact hdb t ht
    | none =>
      cases hfind : db.find? (fun x => x.id == ticket_id) with
      | none =>
        simp only [applyOp, close_ticket, hfind] at ht
        exact hdb t ht
      | some t0 =>
        cases cf with
        | some r =>
          simp only [applyOp, close_ticket, hfind] at ht
          exact hdb t ht
        | none =>
          simp only [applyOp, close_ticket, hfind, replaceById,
            List.mem_map] at ht
          rcases ht with ⟨y, hy, hyt⟩
          by_cases hyid : (y.id == ticket_id) = true
          · rw [if_pos hyid] at hyt
            rw [← hyt]
            show TicketStatus.CLOSED.value ≠ TicketStatus.STALLED.value
            decide
          · rw [if_neg hyid] at hyt
            rw [← hyt]
            exact hdb y hy
  | deleteOp qf cf ticket_id =>
    intro t ht
    cases qf with
    | some r =>
      simp only [applyOp, delete_ticket] at ht
      exact hdb t ht
    | none =>
      cases hfind : db.find? (fun x => x.id == ticket_id) with
      | none =>
        simp only [applyOp, delete_ticket, hfind] at ht
        exact hdb t ht
      | some t0 =>
        cases cf with
        | some r =>
          simp only [applyOp, delete_ticket, hfind] at ht
          exact hdb t ht
        | none =>
          simp only [applyOp, delete_ticket, hfind] at ht
          exact hdb t (List.mem_of_mem_filter ht)

/-- C10.  Starting from the empty store, no sequence of public
operations — with any request bodies, generated ids, clock readings and
storage faults — ever produces a stored ticket whose status is
`"stalled"`: create writes `"open"`, close writes `"closed"`, full-update
copies the old status, delete only removes rows. -/
theorem stalled_status_unreachable (ops : List Op) :
    ∀ t ∈ runOps ops, t.status ≠ TicketStatus.STALLED.value := by
  suffices h : ∀ (ops : List Op) (db : List Ticket),
      (∀ t ∈ db, t.status ≠ TicketStatus.STALLED.value) →
      ∀ t ∈ ops.foldl applyOp db, t.status ≠ TicketStatus.STALLED.value by
    exact h ops [] (by simp)
  intro ops
  induction ops with
  | nil =>
    intro db hdb
    simpa using hdb
  | cons op rest ih =>
    intro db hdb
    exact ih (applyOp db op) (noStalled_applyOp db op hdb)

/-- Witness for C10: a create followed by a close leaves one closed
ticket, whose status is not `"stalled"`. -/
theorem stalled_status_unreachable_witness :
    (⟨5, "a", "b", "closed", 0⟩ : Ticket) ∈
      runOps [Op.createOp none ⟨"a", "b"⟩ 5 0, Op.closeOp none none 5] ∧
    Ticket.status ⟨5, "a", "b", "closed", 0⟩
      ≠ TicketStatus.STALLED.value :=
  ⟨by decide,
   stalled_status_unreachable
     [Op.createOp none ⟨"a", "b"⟩ 5 0, Op.closeOp none none 5]
     ⟨5, "a", "b", "closed", 0⟩ (by decide)⟩

/-! Hex and UUID codec lemmas, for the GUID round trip. -/

theorem hexVal_hexChar : ∀ d < 16, hexVal (hexChar d) = some d := by
  decide

theorem hexChar_ne_hyphen : ∀ d < 16, hexChar d ≠ '-' := by
  decide

theorem toHex_length (w : Nat) : ∀ n, (toHex n w).length = w := by
  induction w with
  | zero =>
    intro n
    rfl
  | succ w ih =>
    intro n
    simp [toHex, ih]

theorem toHex_mem_ne_hyphen (w : Nat) :
    ∀ n, ∀ c ∈ toHex n w, c ≠ '-' := by
  induction w with
  | zero =>
    intro n c hc
    simp [toHex] at hc
  | succ w ih =>
    intro n c hc
    simp only [toHex, List.mem_append, List.mem_singleton] at hc
    rcases hc with hc | hc
    · exact ih _ c hc
    · subst hc
      exact hexChar_ne_hyphen _ (Nat.mod_lt _ (by norm_num))

theorem parseHexAux_append (xs ys : List Char) (acc : Nat) :
    parseHexAux (xs ++ ys) acc =
      match parseHexAux xs acc with
      | none => none
      | some a => parseHexAux ys a := by
  induction xs generalizing acc with
  | nil => simp [parseHexAux]
  | cons c cs ih =>
    cases hv : hexVal c with
    | none => simp [parseHexAux, hv]
    | some d => simp [parseHexAux, hv, ih]

theorem parseHexAux_toHex (w : Nat) :
    ∀ n acc, n < 16 ^ w →
      parseHexAux (toHex n w) acc = some (acc * 16 ^ w + n) := by
  induction w with
  | zero =>
    intro n acc hn
    have hn0 : n = 0 := by omega
    subst hn0
    simp [toHex, parseHexAux]
  | succ w ih =>
    intro n acc hn
    have hdiv : n / 16 < 16 ^ w := by
      rw [Nat.div_lt_iff_lt_mul (by norm_num)]
      calc n < 16 ^ (w + 1) := hn
        _ = 16 ^ w * 16 := by rw [pow_succ]
    rw [toHex, parseHexAux_append, ih _ _ hdiv]
    simp only [parseHexAux,
      hexVal_hexChar _ (Nat.mod_lt n (by norm_num))]
    have hmod : 16 * (n / 16) + n % 16 = n := Nat.div_add_mod n 16
    rw [Nat.mul_add, Nat.add_assoc, hmod, pow_succ]
    ring_nf

theorem take_drop_chunk (l : List Char) (a b : Nat) :
    (l.drop a).take b ++ l.drop (a + b) = l.drop a := by
  rw [← List.drop_drop b a l]
  exact List.take_append_drop b (l.drop a)

theorem filter_insertHyphens (h : List Char) (hh : ∀ c ∈ h, c ≠ '-') :
    (insertHyphens h).filter (fun c => !(c == '-')) = h := by
  have hf : ∀ (l : List Char), (∀ c ∈ l, c ≠ '-') →
      l.filter (fun c => !(c == '-')) = l := by
    intro l hl
    apply List.filter_eq_self.mpr
    intro a ha
    simp [hl a ha]
  have hsub : ∀ (l : List Char), l ⊆ h →
      l.filter (fun c => !(c == '-')) = l := by
    intro l hl
    exact hf l (fun c hc => hh c (hl hc))
  simp only [insertHyphens, List.filter_append]
  rw [hsub _ (List.take_subset 8 h),
      hsub _ ((List.take_subset 4 _).trans (List.drop_subset 8 h)),
      hsub _ ((List.take_subset 4 _).trans (List.drop_subset 12 h)),
      hsub _ ((List.take_subset 4 _).trans (List.drop_subset 16 h)),
      hsub _ (List.drop_subset 20 h)]
  have hdash : List.filter (fun c => !(c == '-')) ['-'] = [] := by decide
  rw [hdash]
  simp only [List.nil_append, List.append_nil, List.append_assoc]
  have h16 : (h.drop 16).take 4 ++ h.drop 20 = h.drop 16 :=
    take_drop_chunk h 16 4
  have h12 : (h.drop 12).take 4 ++ h.drop 16 = h.drop 12 :=
    take_drop_chunk h 12 4
  have h8 : (h.drop 8).take 4 ++ h.drop 12 = h.drop 8 :=
    take_drop_chunk h 8 4
  calc h.take 8 ++ ((h.drop 8).take 4 ++ ((h.drop 12).take 4 ++
        ((h.drop 16).take 4 ++ h.drop 20)))
      = h.take 8 ++ ((h.drop 8).take 4 ++ ((h.drop 12).take 4 ++
        h.drop 16)) := by rw [h16]
    _ = h.take 8 ++ ((h.drop 8).take 4 ++ h.drop 12) := by rw [h12]
    _ = h.take 8 ++ h.drop 8 := by rw [h8]
    _ = h := List.take_append_drop 8 h

theorem parseUUID_uuidToString (n : Nat) (hn : n < 2 ^ 128) :
    parseUUID (uuidToString n) = some n := by
  have h16 : n < 16 ^ 32 := by
    have : (16 : Nat) ^ 32 = 2 ^ 128 := by norm_num
    rw [this]
    exact hn
  show (if ((String.mk (insertHyphens (toHex n 32))).toList.filter
      (fun c => !(c == '-'))).length = 32
    then parseHexAux ((String.mk (insertHyphens (toHex n 32))).toList.filter
      (fun c => !(c == '-'))) 0 else none) = some n
  have hlist : (String.mk (insertHyphens (toHex n 32))).toList
      = insertHyphens (toHex n 32) := rfl
  rw [hlist, filter_insertHyphens _ (toHex_mem_ne_hyphen 32 n),
    if_pos (toHex_length 32 n), parseHexAux_toHex 32 n 0 h16]
  simp

/-- C4.  The GUID codec round-trips every valid 128-bit identifier on
both storage representations: on the native-UUID dialect (`postgresql`)
bind and result both pass the value through unchanged; on the string
dialect (`sqlite`) bind serializes to the canonical 36-character text and
result parses it back to the same identifier; and a null value passes
through unchanged in both directions on both dialects. -/
theorem guid_codec_roundtrip (n : Nat) (hn : n < 2 ^ 128) :
    (process_bind_param "postgresql" (.uuid n) = some (.uuid n) ∧
     process_result_value "postgresql" (.uuid n) = some (.uuid n)) ∧
    (process_bind_param "sqlite" (.uuid n)
        = some (.str (uuidToString n)) ∧
     process_result_value "sqlite" (.str (uuidToString n))
        = some (.uuid n)) ∧
    (∀ dialect, process_bind_param dialect .null = some .null ∧
      process_result_value dialect .null = some .null) := by
  refine ⟨⟨rfl, rfl⟩, ⟨rfl, ?_⟩, fun dialect => ⟨rfl, rfl⟩⟩
  show (parseUUID (uuidToString n)).map GUIDValue.uuid = some (.uuid n)
  rw [parseUUID_uuidToString n hn]
  rfl

/-- Witness for C4 at a concrete 128-bit identifier. -/
theorem guid_codec_roundtrip_witness :
    (0x3f2a99b1c4d54e6f8a0b1c2d3e4f5a6b : Nat) < 2 ^ 128 ∧
    ((process_bind_param "postgresql"
        (.uuid 0x3f2a99b1c4d54e6f8a0b1c2d3e4f5a6b)
        = some (.uuid 0x3f2a99b1c4d54e6f8a0b1c2d3e4f5a6b) ∧
      process_result_value "postgresql"
        (.uuid 0x3f2a99b1c4d54e6f8a0b1c2d3e4f5a6b)
        = some (.uuid 0x3f2a99b1c4d54e6f8a0b1c2d3e4f5a6b)) ∧
     (process_bind_param "sqlite"
        (.uuid 0x3f2a99b1c4d54e6f8a0b1c2d3e4f5a6b)
        = some (.str (uuidToString 0x3f2a99b1c4d54e6f8a0b1c2d3e4f5a6b)) ∧
      process_result_value "sqlite"
        (.str (uuidToString 0x3f2a99b1c4d54e6f8a0b1c2d3e4f5a6b))
        = some (.uuid 0x3f2a99b1c4d54e6f8a0b1c2d3e4f5a6b)) ∧
     (∀ dialect, process_bind_param dialect .null = some .null ∧
       process_result_value dialect .null = some .null)) :=
  ⟨by norm_num,
   guid_codec_roundtrip 0x3f2a99b1c4d54e6f8a0b1c2d3e4f5a6b (by norm_num)⟩

/-- C8, the code at the failing input.  The canonical text of a
128-bit identifier — the very form the system stores and returns for
ticket ids — is rejected by the router path-parameter validation
(`ticket_id: int = Path(..., gt=0)`), while a plain positive integer like
`"999"`, which can never equal a stored UUID id, passes it. -/
theorem router_rejects_canonical_uuid_path :
    uuidToString 0x3f2a99b1c4d54e6f8a0b1c2d3e4f5a6b
      = "3f2a99b1-c4d5-4e6f-8a0b-1c2d3e4f5a6b" ∧
    parsePathTicketId "3f2a99b1-c4d5-4e6f-8a0b-1c2d3e4f5a6b" = none ∧
    parsePathTicketId "999" = some 999 := by
  refine ⟨?_, ?_, ?_⟩ <;> decide

end TicketMgmt
